import Mathlib

/-!
Verification of the `rust-peer` node orchestrator (src/rust-peer/src/main.rs)
against its natural-language specification.

The source is shallowly embedded: pure fragments become Lean functions, the
event loop becomes a step function on an explicit node state producing a list
of observable effects, and fallible operations return `Except`.  External
collaborators (the cryptography of ed25519, the std `DefaultHasher`, the
operating system's file I/O and socket binds) are modelled as deterministic
functions or as explicit outcome parameters, as the spec directs: only the
orchestration policy is in scope.
-/

/-- `TICK_INTERVAL` (main.rs line 36), in seconds: `Duration::from_secs(15)`. -/
def TICK_INTERVAL : Nat := 15

/-- `PORT_TCP` (main.rs line 37). -/
def PORT_TCP : Nat := 1234

/-- `PORT_WEBRTC` (main.rs line 38). -/
def PORT_WEBRTC : Nat := 9090

/-- `PORT_QUIC` (main.rs line 39). -/
def PORT_QUIC : Nat := 9091

/-- `LOCAL_KEY_PATH` (main.rs line 40). -/
def LOCAL_KEY_PATH : String := "./local_key"

/-- `GOSSIPSUB_PEER_DISCOVERY` (main.rs line 42): the discovery topic name. -/
def GOSSIPSUB_PEER_DISCOVERY : String := "dcontact._peer-discovery._p2p._pubsub"

/-- `DCONTACT_TOPIC` (main.rs line 43): the application-message topic name. -/
def DCONTACT_TOPIC : String := "/dContact/3/message/proto"

/-- One component of a multiaddr (`libp2p::multiaddr::Protocol`), restricted to
the variants this program constructs or consumes.  `IpAddr` values are modelled
as naturals (the program never inspects the address bytes), peer ids as their
string rendering. -/
inductive Proto where
  | ip4 (addr : Nat)
  | dns4 (host : String)
  | tcp (port : Nat)
  | udp (port : Nat)
  | webRTCDirect
  | quicV1
  | p2p (peer : String)
  deriving DecidableEq, Repr

/-- `Multiaddr`: a sequence of protocol components. -/
abbrev Multiaddr := List Proto

/-- `Multiaddr::replace(at, f)`: replace the component at index `at` by `f`'s
answer; `none` when the index is out of bounds or `f` answers `None`. -/
def Multiaddr.replace (a : Multiaddr) (at' : Nat) (f : Proto → Option Proto) :
    Option Multiaddr :=
  match a, at' with
  | [], _ => none
  | p :: rest, 0 => (f p).map (· :: rest)
  | p :: rest, n + 1 => (Multiaddr.replace rest n f).map (p :: ·)

/-- An ed25519 keypair, identified by its secret seed bytes.  The cryptographic
key schedule is an external collaborator; the orchestrator only needs that a
keypair determines its public key. -/
structure Keypair where
  seed : List Nat
  deriving DecidableEq, Repr

/-- Modelled from the spec: ed25519 public-key derivation (external
cryptography library) as a deterministic injective-on-bytes function of the
secret seed. -/
def Keypair.publicKey (k : Keypair) : List Nat :=
  k.seed.map (fun b => (b * 193 + 71) % 256)

/-- A 64-bit byte-sequence hash standing in for the hashers the program takes
from its libraries (std `DefaultHasher`, the multihash inside `PeerId`): a
concrete FNV-style fold, deterministic in the bytes alone. -/
def hashBytes64 (bytes : List Nat) : Nat :=
  bytes.foldl (fun h b => ((h ^^^ (b % 256)) * 1099511628211) % 2 ^ 64)
    14695981039346656037

/-- `PeerId::from(public_key)` (main.rs line 295): the fixed-length identifier
derived from a keypair's public key, rendered as a string. -/
def peerIdOf (k : Keypair) : String := toString (hashBytes64 k.publicKey)

/-- `Keypair::to_protobuf_encoding` (libp2p): protobuf framing of the key —
field 1 varint key-type (1 = ed25519), field 2 length-delimited key bytes. -/
def Keypair.to_protobuf_encoding (k : Keypair) : List Nat :=
  8 :: 1 :: 18 :: k.seed.length :: k.seed

/-- `Keypair::from_protobuf_encoding` (libp2p): parse the framing back;
`none` on any malformed input. -/
def Keypair.from_protobuf_encoding : List Nat → Option Keypair
  | 8 :: 1 :: 18 :: n :: rest => if rest.length = n then some ⟨rest⟩ else none
  | _ => none

/-- The file system visible to the identity store: a map from paths to byte
contents, as an association list. -/
structure FS where
  files : List (String × List Nat)
  deriving DecidableEq, Repr

/-- `tokio::fs::read` / `path.exists()`: the bytes at a path, when present. -/
def FS.read (fs : FS) (p : String) : Option (List Nat) :=
  (fs.files.find? (fun f => f.1 == p)).map (·.2)

/-- `tokio::fs::write`: store bytes at a path, replacing previous contents. -/
def FS.write (fs : FS) (p : String) (bytes : List Nat) : FS :=
  ⟨(p, bytes) :: fs.files.filter (fun f => f.1 != p)⟩

/-- `read_or_create_identity` (main.rs lines 403-419).  `rng` is the keypair
that `identity::Keypair::generate_ed25519()` would draw — randomness is an
external input, passed explicitly.  If the path exists its bytes are decoded
(decode failure is fatal: `.error`); otherwise the drawn keypair is encoded,
written, and returned. -/
def read_or_create_identity (rng : Keypair) (fs : FS) (path : String) :
    Except String (Keypair × FS) :=
  match FS.read fs path with
  | some bytes =>
      match Keypair.from_protobuf_encoding bytes with
      | some key => .ok (key, fs)
      | none => .error "Failed to read identity"
  | none => .ok (rng, FS.write fs path rng.to_protobuf_encoding)

/-- The command-line options `Opt` (main.rs lines 45-69). -/
structure Opt where
  listen_address : Nat
  external_address : Option Nat
  gossipsub_peer_discovery : String
  dcontact_topic : String
  connect : List Multiaddr
  deriving DecidableEq, Repr

/-- The default bootstrap address of the `connect` option (main.rs line 66). -/
def bootstrapAddr : Multiaddr :=
  [Proto.dns4 "ipfs.le-space.de", Proto.tcp 1235,
   Proto.p2p "12D3KooWAJjbRkp8FPF5MKgMU53aUTxWkqvDrs4zc1VMbwRwfsbE"]

/-- The clap defaults of `Opt` ("0.0.0.0" rendered as address 0). -/
def defaultOpt : Opt :=
  { listen_address := 0
    external_address := none
    gossipsub_peer_discovery := GOSSIPSUB_PEER_DISCOVERY
    dcontact_topic := DCONTACT_TOPIC
    connect := [bootstrapAddr] }

/-- A received `gossipsub::Message`.  All topics in this program are built with
`IdentTopic` (identity topic hashing), so a `TopicHash` is the topic name
itself and is modelled as the name string. -/
structure GossipsubMessage where
  source : Option String
  data : List Nat
  sequence_number : Option Nat
  topic : String
  deriving DecidableEq, Repr

/-- `message_id_fn` (main.rs lines 299-303): hash `message.data` with a
`DefaultHasher` and render the 64-bit result as a string. -/
def message_id_fn (message : GossipsubMessage) : String :=
  toString (hashBytes64 message.data)

/-- The mutable orchestrator-visible node state: the swarm's external address
set, and the gossipsub behaviour's subscription set and explicit-peer set.
`rejectedTopics` models the external gossipsub library's subscription filter:
the topics for which `subscribe` answers `Err` (empty under the default
all-allowing filter). -/
structure NodeState where
  externalAddrs : List Multiaddr
  subscribedTopics : List String
  rejectedTopics : List String
  explicitPeers : List String
  deriving DecidableEq, Repr

/-- `Swarm::add_external_address`: set-semantics insertion — an address
already present is left untouched. -/
def addExternalAddress (addrs : List Multiaddr) (a : Multiaddr) :
    List Multiaddr :=
  if a ∈ addrs then addrs else addrs ++ [a]

/-- `gossipsub::Behaviour::add_explicit_peer`: set-semantics insertion. -/
def addExplicitPeer (peers : List String) (p : String) : List String :=
  if p ∈ peers then peers else peers ++ [p]

/-- `gossipsub::Behaviour::subscribe`: `Err` when the library's subscription
filter rejects the topic, `Ok false` when already subscribed, `Ok true` after
recording a fresh subscription. -/
def gossipsubSubscribe (s : NodeState) (topic : String) :
    Except String (Bool × NodeState) :=
  if topic ∈ s.rejectedTopics then .error "SubscriptionError"
  else if topic ∈ s.subscribedTopics then .ok (false, s)
  else .ok (true, { s with subscribedTopics := s.subscribedTopics ++ [topic] })

/-- The events the `select` in the main loop can wake on (main.rs lines
118-274): one constructor per `SwarmEvent` arm the match distinguishes, a
catch-all for its `_` arm, and `tick` for the timer branch. -/
inductive Event where
  | newListenAddr (address : Multiaddr)
  | connectionEstablished (peer : String)
  | outgoingConnectionError (peer : Option String)
  | incomingConnectionError
  | connectionClosed (peer : String)
  | relayEvent
  | dcutrEvent
  | gossipsubMessage (message : GossipsubMessage)
  | gossipsubSubscribed (peer : String) (topic : String)
  | identifyReceived (peer : String) (observedAddr : Multiaddr)
  | identifyError (peer : String) (timeout : Bool)
  | identifyOther
  | otherEvent
  | tick
  deriving DecidableEq, Repr

/-- The observable side effects one loop iteration issues, in program order:
calls into the swarm/behaviour and log lines. -/
inductive Effect where
  | subscribeCall (topic : String)
  | addExplicitPeerCall (peer : String)
  | addExternalAddressCall (addr : Multiaddr)
  | dialCall (addr : Multiaddr)
  | rearmTimer (secs : Nat)
  | logSnapshot (addrs : List Multiaddr)
  | logListening (addr : Multiaddr)
  | logInfo (msg : String)
  | logDebug (msg : String)
  | logWarn (msg : String)
  | logError (msg : String)
  deriving DecidableEq, Repr

/-- One iteration of the event loop (main.rs lines 118-275): the `match` over
the selected event, executed to completion.  `lpid` is `swarm.local_peer_id()`.
`.error` models a panic that tears the loop down (the `.expect` in the
new-listen-address arm); every other arm returns `.ok` with the updated state
and its effects in program order. -/
def event_loop_step (opt : Opt) (lpid : String) (s : NodeState) :
    Event → Except String (NodeState × List Effect)
  | .newListenAddr address =>
      match opt.external_address with
      | some externalIp =>
          match Multiaddr.replace address 0 (fun _ => some (.ip4 externalIp)) with
          | none => .error "address.len > 1 and we always return Some"
          | some externalAddress =>
              .ok ({ s with externalAddrs :=
                       addExternalAddress s.externalAddrs externalAddress },
                   [.addExternalAddressCall externalAddress,
                    .logListening (address ++ [Proto.p2p lpid])])
      | none => .ok (s, [.logListening (address ++ [Proto.p2p lpid])])
  | .connectionEstablished _ => .ok (s, [.logInfo "Connected to"])
  | .outgoingConnectionError _ => .ok (s, [.logWarn "Failed to dial"])
  | .incomingConnectionError => .ok (s, [.logWarn "incoming connection error"])
  | .connectionClosed _ => .ok (s, [.logWarn "Connection closed"])
  | .relayEvent => .ok (s, [.logDebug "relay event"])
  | .dcutrEvent => .ok (s, [.logInfo "Connected to"])
  | .gossipsubMessage message =>
      match gossipsubSubscribe s message.topic with
      | .error _ =>
          .ok (s, [.subscribeCall message.topic,
                   .logError "Failed to subscribe to topic",
                   .logInfo "subscribe to topic"])
      | .ok (_, s2) =>
          .ok (s2, [.subscribeCall message.topic, .logInfo "subscribe to topic"])
  | .gossipsubSubscribed peer _ =>
      .ok ({ s with explicitPeers := addExplicitPeer s.explicitPeers peer },
           [.logDebug "subscribed to", .addExplicitPeerCall peer])
  | .identifyReceived _ observedAddr =>
      .ok ({ s with externalAddrs :=
               addExternalAddress s.externalAddrs observedAddr },
           [.logInfo "BehaviourEvent::Identify",
            .logDebug "identify received observed addr",
            .addExternalAddressCall observedAddr])
  | .identifyError _ timeout =>
      .ok (s, [.logInfo "BehaviourEvent::Identify",
               if timeout then .logInfo "Removed from the routing table"
               else .logDebug "identify error"])
  | .identifyOther => .ok (s, [.logInfo "BehaviourEvent::Identify"])
  | .otherEvent => .ok (s, [])
  | .tick => .ok (s, [.rearmTimer TICK_INTERVAL, .logSnapshot s.externalAddrs])

/-- The keying-relevant outcome of `create_swarm` (main.rs lines 290-381):
which keypair each constituent was configured with, the initial behaviour
state, and the gossipsub subscribe calls the function issues. -/
structure SwarmModel where
  swarmKey : Keypair
  localPeerIdLogged : String
  gossipsubSigningKey : Keypair
  identifyAdvertisedPublicKey : List Nat
  dcutrPeerId : String
  relayPeerId : String
  initialState : NodeState
  subscribeCallsIssued : List String
  deriving DecidableEq, Repr

/-- `create_swarm` (main.rs lines 290-381).  `fresh_key` is the keypair
`SwarmBuilder::with_new_identity()` (line 362) draws from the RNG: the builder
seeds the noise handshake of the TCP transport, the QUIC transport, and the
WebRTC transport closure's `id_keys` with that freshly generated key, not with
the `local_key` argument.  `local_key` is used for the logged peer id (line
295-296), gossipsub message signing (line 317), the identify advertisement
(line 338), dcutr (line 344) and relay (line 347-348).  `rejected` seeds the
library subscription filter model; line 323 subscribes the behaviour to the
configured discovery topic and propagates its error with `?`.  No other
subscribe call occurs before the event loop (main.rs lines 113-114 only
construct unused topic hashes). -/
def create_swarm (local_key : Keypair) (fresh_key : Keypair) (opt : Opt)
    (rejected : List String) : Except String SwarmModel :=
  let local_peer_id := peerIdOf local_key
  let gossipsub0 : NodeState :=
    { externalAddrs := [], subscribedTopics := [],
      rejectedTopics := rejected, explicitPeers := [] }
  match gossipsubSubscribe gossipsub0 opt.gossipsub_peer_discovery with
  | .error e => .error e
  | .ok (_, gossipsub1) =>
      .ok { swarmKey := fresh_key
            localPeerIdLogged := local_peer_id
            gossipsubSigningKey := local_key
            identifyAdvertisedPublicKey := local_key.publicKey
            dcutrPeerId := peerIdOf local_key
            relayPeerId := peerIdOf local_key
            initialState := gossipsub1
            subscribeCallsIssued := [opt.gossipsub_peer_discovery] }

/-- The peer identifier under which the composed transport stack of the built
swarm authenticates: the one derived from the key the `SwarmBuilder` was
seeded with. -/
def swarmTransportPeerId (sw : SwarmModel) : String := peerIdOf sw.swarmKey

/-- The outcome the operating system reports for each of the three
`listen_on` calls (main.rs lines 97-105); binding is external I/O, so the
outcomes are inputs to the model. -/
structure BindOutcomes where
  tcp : Except String Unit
  webrtc : Except String Unit
  quic : Except String Unit
  deriving Repr

def exceptIsOk {α : Type} : Except String α → Bool
  | .ok _ => true
  | .error _ => false

/-- The listen/dial prologue of `main` (main.rs lines 97-111): the three
`listen_on(...).expect(...)` calls in order (a failed one panics: `.error`,
the event loop is never entered), then one `dial` per configured bootstrap
address whose failure is only logged at debug level.  `.ok effects` means the
event loop is entered. -/
def startup_listen_and_dial (binds : BindOutcomes)
    (dials : List (Multiaddr × Except String Unit)) :
    Except String (List Effect) :=
  match binds.tcp with
  | .error _ => .error "listen on tcp"
  | .ok _ =>
  match binds.webrtc with
  | .error _ => .error "listen on webrtc"
  | .ok _ =>
  match binds.quic with
  | .error _ => .error "listen on quic"
  | .ok _ =>
      .ok ((dials.map (fun d =>
        Effect.dialCall d.1 ::
          match d.2 with
          | .ok _ => []
          | .error _ => [Effect.logDebug "Failed to dial"])).flatten)

/-- Recognizes the explicit-peer registration call among the effects. -/
def isRegistrationCall : Effect → Bool
  | .addExplicitPeerCall _ => true
  | _ => false

/-- The swarm built by `create_swarm ⟨[1]⟩ ⟨[2]⟩ defaultOpt []`: persisted
key with seed byte 1, builder-drawn fresh key with seed byte 2, default
options, the default all-allowing subscription filter. -/
def swExample : SwarmModel :=
  { swarmKey := ⟨[2]⟩
    localPeerIdLogged := peerIdOf ⟨[1]⟩
    gossipsubSigningKey := ⟨[1]⟩
    identifyAdvertisedPublicKey := Keypair.publicKey ⟨[1]⟩
    dcutrPeerId := peerIdOf ⟨[1]⟩
    relayPeerId := peerIdOf ⟨[1]⟩
    initialState :=
      { externalAddrs := [], subscribedTopics := [GOSSIPSUB_PEER_DISCOVERY],
        rejectedTopics := [], explicitPeers := [] }
    subscribeCallsIssued := [GOSSIPSUB_PEER_DISCOVERY] }

theorem FS.read_write (fs : FS) (p : String) (b : List Nat) :
    FS.read (FS.write fs p b) p = some b := by
  simp [FS.read, FS.write]

theorem Keypair.protobuf_roundtrip (k : Keypair) :
    Keypair.from_protobuf_encoding k.to_protobuf_encoding = some k := by
  simp [Keypair.to_protobuf_encoding, Keypair.from_protobuf_encoding]

theorem mem_addExternalAddress (l : List Multiaddr) (a x : Multiaddr)
    (hx : x ∈ l) : x ∈ addExternalAddress l a := by
  unfold addExternalAddress
  split <;> simp [hx]

theorem addExternalAddress_shape (l : List Multiaddr) (a : Multiaddr) :
    addExternalAddress l a = l ∨
      (a ∉ l ∧ addExternalAddress l a = l ++ [a]) := by
  unfold addExternalAddress
  split <;> simp_all

theorem addExternalAddress_of_mem (l : List Multiaddr) (a : Multiaddr)
    (h : a ∈ l) : addExternalAddress l a = l := by
  simp [addExternalAddress, h]

theorem mem_addExplicitPeer_self (l : List String) (p : String) :
    p ∈ addExplicitPeer l p := by
  unfold addExplicitPeer
  split <;> simp_all

/-- Shared shape of the message-arm of the loop: the step never aborts, it
always issues the subscribe call for the carried topic, and a rejected
subscription is answered with the error log line. -/
theorem gossipsubMessage_step_subscribes (opt : Opt) (lpid : String)
    (s : NodeState) (m : GossipsubMessage) :
    ∃ p, event_loop_step opt lpid s (.gossipsubMessage m) = .ok p ∧
      Effect.subscribeCall m.topic ∈ p.2 ∧
      (m.topic ∈ s.rejectedTopics →
        Effect.logError "Failed to subscribe to topic" ∈ p.2) := by
  by_cases h1 : m.topic ∈ s.rejectedTopics
  · refine ⟨(s, [.subscribeCall m.topic,
      .logError "Failed to subscribe to topic", .logInfo "subscribe to topic"]),
      ?_, by simp, fun _ => by simp⟩
    simp [event_loop_step, gossipsubSubscribe, h1]
  · by_cases h2 : m.topic ∈ s.subscribedTopics
    · refine ⟨(s, [.subscribeCall m.topic, .logInfo "subscribe to topic"]),
        ?_, by simp, fun hc => absurd hc h1⟩
      simp [event_loop_step, gossipsubSubscribe, h1, h2]
    · refine ⟨({ s with subscribedTopics := s.subscribedTopics ++ [m.topic] },
        [.subscribeCall m.topic, .logInfo "subscribe to topic"]),
        ?_, by simp, fun hc => absurd hc h1⟩
      simp [event_loop_step, gossipsubSubscribe, h1, h2]

/-- C2: for every received pubsub message tagged with topic name `T`
(previously seen or not), the event loop issues a subscribe call for `T`
itself — the topic name the message carries — and when that subscribe call
fails (the library filter rejects it) the failure is logged with the error
line and the iteration still returns normally, so the loop is not
terminated. -/
theorem C2_message_resubscribes_carried_topic (opt : Opt) (lpid : String)
    (s : NodeState) (m : GossipsubMessage) :
    ∃ p, event_loop_step opt lpid s (.gossipsubMessage m) = .ok p ∧
      Effect.subscribeCall m.topic ∈ p.2 ∧
      (m.topic ∈ s.rejectedTopics →
        Effect.logError "Failed to subscribe to topic" ∈ p.2) :=
  gossipsubMessage_step_subscribes opt lpid s m

/-- C7: every subscription notification for remote peer `P`, on any topic,
makes the loop issue exactly one explicit-peer registration call for `P`
(the effect list filtered to registration calls is exactly that one call),
the iteration never errors, and a duplicate notification issues the same
single registration call again while `P` stays registered. -/
theorem C7_subscribed_registers_explicit_peer (opt : Opt) (lpid : String)
    (s : NodeState) (p t : String) :
    ∃ s1 effs1,
      event_loop_step opt lpid s (.gossipsubSubscribed p t) = .ok (s1, effs1) ∧
      effs1.filter isRegistrationCall = [Effect.addExplicitPeerCall p] ∧
      ∃ s2 effs2,
        event_loop_step opt lpid s1 (.gossipsubSubscribed p t) =
          .ok (s2, effs2) ∧
        effs2.filter isRegistrationCall = [Effect.addExplicitPeerCall p] ∧
        p ∈ s2.explicitPeers := by
  refine ⟨_, _, rfl, by simp [isRegistrationCall], _, _, rfl,
    by simp [isRegistrationCall], ?_⟩
  exact mem_addExplicitPeer_self _ p

/-- C8: the gossipsub message-id is computed from the payload bytes alone —
two messages with byte-identical payloads get the identical id whatever
their publisher, topic or sequence number. -/
theorem C8_message_id_function_of_payload_only (m1 m2 : GossipsubMessage)
    (h : m1.data = m2.data) : message_id_fn m1 = message_id_fn m2 := by
  unfold message_id_fn
  rw [h]

/-- Witness for C8: two messages from different publishers, with different
sequence numbers and topics but the same payload, get the same id. -/
theorem C8_witness :
    message_id_fn ⟨some "alice", [1, 2, 3], some 7, "topic-a"⟩ =
      message_id_fn ⟨some "bob", [1, 2, 3], some 99, "topic-b"⟩ :=
  C8_message_id_function_of_payload_only _ _ rfl

/-- C9: when the timer fires the loop rearms it for the same fixed 15-second
interval (`TICK_INTERVAL`) and emits the diagnostic snapshot of the current
External Address Set, and the node state is returned entirely unchanged —
no address, subscription or explicit-peer is touched. -/
theorem C9_tick_rearms_and_changes_nothing (opt : Opt) (lpid : String)
    (s : NodeState) :
    event_loop_step opt lpid s .tick =
      .ok (s, [Effect.rearmTimer 15, Effect.logSnapshot s.externalAddrs]) ∧
    TICK_INTERVAL = 15 :=
  ⟨rfl, rfl⟩

/-- C4: startup enters the event loop exactly when all three listen binds
(stream/TCP, browser-compatible/WebRTC, UDP-secure/QUIC) succeed — any bind
failure aborts before the loop — and the bootstrap dial outcomes have no
influence on whether the loop is entered: a failed dial is only logged. -/
theorem C4_binds_fatal_dials_nonfatal (binds : BindOutcomes)
    (dials : List (Multiaddr × Except String Unit)) :
    (exceptIsOk (startup_listen_and_dial binds dials) =
      (exceptIsOk binds.tcp && exceptIsOk binds.webrtc &&
        exceptIsOk binds.quic)) ∧
    (∀ dials2, exceptIsOk (startup_listen_and_dial binds dials2) =
      exceptIsOk (startup_listen_and_dial binds dials)) := by
  obtain ⟨t, w, q⟩ := binds
  cases t <;> cases w <;> cases q <;>
    simp [startup_listen_and_dial, exceptIsOk]

/-- C5: on a new-listen-address event for a (nonempty) bound address, with an
external-IP override configured the loop registers exactly the listen address
with its first component replaced by the override and the remaining
components unchanged; without an override it registers nothing and only logs
the dialable address. -/
theorem C5_override_rewrites_first_component (opt : Opt) (lpid : String)
    (s : NodeState) (address : Multiaddr) (h : address ≠ []) :
    (∀ ip, opt.external_address = some ip →
      event_loop_step opt lpid s (.newListenAddr address) =
        .ok ({ s with externalAddrs := (addExternalAddress s.externalAddrs
                 (Proto.ip4 ip :: address.tail)) },
             [.addExternalAddressCall (Proto.ip4 ip :: address.tail),
              .logListening (address ++ [Proto.p2p lpid])])) ∧
    (opt.external_address = none →
      event_loop_step opt lpid s (.newListenAddr address) =
        .ok (s, [.logListening (address ++ [Proto.p2p lpid])])) := by
  obtain ⟨p0, rest, rfl⟩ : ∃ p0 rest, address = p0 :: rest := by
    cases address with
    | nil => exact absurd rfl h
    | cons a l => exact ⟨a, l, rfl⟩
  refine ⟨fun ip hip => ?_, fun hip => ?_⟩
  · simp [event_loop_step, hip, Multiaddr.replace]
  · simp [event_loop_step, hip]

/-- Witness for C5: a concrete TCP listen address with override 9 is
registered as the override followed by the unchanged suffix. -/
theorem C5_witness :
    event_loop_step { defaultOpt with external_address := some 9 } "pid"
        ⟨[], [], [], []⟩ (.newListenAddr [Proto.ip4 7, Proto.tcp 1234]) =
      .ok (⟨[[Proto.ip4 9, Proto.tcp 1234]], [], [], []⟩,
           [.addExternalAddressCall [Proto.ip4 9, Proto.tcp 1234],
            .logListening [Proto.ip4 7, Proto.tcp 1234, Proto.p2p "pid"]]) := by
  have hc := (C5_override_rewrites_first_component
    { defaultOpt with external_address := some 9 } "pid" ⟨[], [], [], []⟩
    [Proto.ip4 7, Proto.tcp 1234] (by simp)).1 9 rfl
  simpa [addExternalAddress] using hc

/-- C3: identity load-or-create round trip.  If the identity file exists and
loads, loading again from the unchanged file system yields the very same
keypair (hence the same derived identifier); if it does not exist, one
invocation persists the generated keypair's encoding and a subsequent load of
the written file returns that same keypair, re-deriving the identical
identifier. -/
theorem C3_identity_load_or_create_roundtrip (rng rng2 : Keypair) (fs : FS)
    (path : String) :
    ((FS.read fs path).isSome →
      ∀ k1 fs1, read_or_create_identity rng fs path = .ok (k1, fs1) →
        fs1 = fs ∧
        read_or_create_identity rng2 fs1 path = .ok (k1, fs1)) ∧
    (FS.read fs path = none →
      ∃ fs1, read_or_create_identity rng fs path = .ok (rng, fs1) ∧
        FS.read fs1 path = some rng.to_protobuf_encoding ∧
        read_or_create_identity rng2 fs1 path = .ok (rng, fs1) ∧
        peerIdOf rng = peerIdOf rng) := by
  constructor
  · intro hsome k1 fs1 h
    cases hread : FS.read fs path with
    | none => rw [hread] at hsome; simp at hsome
    | some bytes =>
        cases hdec : Keypair.from_protobuf_encoding bytes with
        | none => simp [read_or_create_identity, hread, hdec] at h
        | some key =>
            simp [read_or_create_identity, hread, hdec] at h
            obtain ⟨rfl, rfl⟩ := h
            exact ⟨rfl, by simp [read_or_create_identity, hread, hdec]⟩
  · intro hnone
    refine ⟨FS.write fs path rng.to_protobuf_encoding, ?_,
      FS.read_write fs path _, ?_, rfl⟩
    · simp [read_or_create_identity, hnone]
    · simp [read_or_create_identity, FS.read_write, Keypair.protobuf_roundtrip]

/-- C6: every event-loop transition leaves the External Address Set unchanged
or appends one new entry, so the set grows monotonically and no transition
removes an entry; and re-adding an observed address already present (an
identification event reporting it again) raises no error and leaves the set
unchanged with the address still present. -/
theorem C6_external_address_set_monotone (opt : Opt) (lpid : String)
    (s : NodeState) (e : Event) (s' : NodeState) (effs : List Effect)
    (h : event_loop_step opt lpid s e = .ok (s', effs)) :
    (s'.externalAddrs = s.externalAddrs ∨
      ∃ a, a ∉ s.externalAddrs ∧ s'.externalAddrs = s.externalAddrs ++ [a]) ∧
    (∀ a, a ∈ s.externalAddrs → a ∈ s'.externalAddrs) ∧
    (∀ p a, a ∈ s.externalAddrs →
      ∃ s2 effs2,
        event_loop_step opt lpid s (.identifyReceived p a) = .ok (s2, effs2) ∧
        s2.externalAddrs = s.externalAddrs ∧ a ∈ s2.externalAddrs) := by
  have key : s'.externalAddrs = s.externalAddrs ∨
      ∃ a, a ∉ s.externalAddrs ∧ s'.externalAddrs = s.externalAddrs ++ [a] := by
    cases e with
    | newListenAddr address =>
        cases hext : opt.external_address with
        | none =>
            simp [event_loop_step, hext] at h
            obtain ⟨rfl, -⟩ := h
            exact Or.inl rfl
        | some ip =>
            cases hrep :
                Multiaddr.replace address 0 (fun _ => some (.ip4 ip)) with
            | none => simp [event_loop_step, hext, hrep] at h
            | some ea =>
                simp [event_loop_step, hext, hrep] at h
                obtain ⟨rfl, -⟩ := h
                rcases addExternalAddress_shape s.externalAddrs ea with
                  hs | ⟨hna, hs⟩
                · exact Or.inl hs
                · exact Or.inr ⟨ea, hna, hs⟩
    | connectionEstablished p =>
        simp [event_loop_step] at h
        obtain ⟨rfl, -⟩ := h
        exact Or.inl rfl
    | outgoingConnectionError p =>
        simp [event_loop_step] at h
        obtain ⟨rfl, -⟩ := h
        exact Or.inl rfl
    | incomingConnectionError =>
        simp [event_loop_step] at h
        obtain ⟨rfl, -⟩ := h
        exact Or.inl rfl
    | connectionClosed p =>
        simp [event_loop_step] at h
        obtain ⟨rfl, -⟩ := h
        exact Or.inl rfl
    | relayEvent =>
        simp [event_loop_step] at h
        obtain ⟨rfl, -⟩ := h
        exact Or.inl rfl
    | dcutrEvent =>
        simp [event_loop_step] at h
        obtain ⟨rfl, -⟩ := h
        exact Or.inl rfl
    | gossipsubMessage m =>
        by_cases h1 : m.topic ∈ s.rejectedTopics
        · simp [event_loop_step, gossipsubSubscribe, h1] at h
          obtain ⟨rfl, -⟩ := h
          exact Or.inl rfl
        · by_cases h2 : m.topic ∈ s.subscribedTopics
          · simp [event_loop_step, gossipsubSubscribe, h1, h2] at h
            obtain ⟨rfl, -⟩ := h
            exact Or.inl rfl
          · simp [event_loop_step, gossipsubSubscribe, h1, h2] at h
            obtain ⟨rfl, -⟩ := h
            exact Or.inl rfl
    | gossipsubSubscribed p t =>
        simp [event_loop_step] at h
        obtain ⟨rfl, -⟩ := h
        exact Or.inl rfl
    | identifyReceived p a =>
        simp [event_loop_step] at h
        obtain ⟨rfl, -⟩ := h
        rcases addExternalAddress_shape s.externalAddrs a with hs | ⟨hna, hs⟩
        · exact Or.inl hs
        · exact Or.inr ⟨a, hna, hs⟩
    | identifyError p timeout =>
        simp [event_loop_step] at h
        obtain ⟨rfl, -⟩ := h
        exact Or.inl rfl
    | identifyOther =>
        simp [event_loop_step] at h
        obtain ⟨rfl, -⟩ := h
        exact Or.inl rfl
    | otherEvent =>
        simp [event_loop_step] at h
        obtain ⟨rfl, -⟩ := h
        exact Or.inl rfl
    | tick =>
        simp [event_loop_step] at h
        obtain ⟨rfl, -⟩ := h
        exact Or.inl rfl
  refine ⟨key, fun a ha => ?_, fun p a ha => ?_⟩
  · rcases key with hk | ⟨b, -, hk⟩ <;> rw [hk] <;> simp [ha]
  · refine ⟨_, _, rfl, ?_, ?_⟩
    · simpa using addExternalAddress_of_mem s.externalAddrs a ha
    · simpa using mem_addExternalAddress s.externalAddrs a a ha

/-- Witness for C6: a transition that receives identification of a fresh
observed address appends exactly that one entry to the External Address
Set. -/
theorem C6_witness :
    ((⟨[[Proto.ip4 1], [Proto.ip4 2]], [], [], []⟩ : NodeState).externalAddrs =
        (⟨[[Proto.ip4 1]], [], [], []⟩ : NodeState).externalAddrs ∨
      ∃ a, a ∉ (⟨[[Proto.ip4 1]], [], [], []⟩ : NodeState).externalAddrs ∧
        (⟨[[Proto.ip4 1], [Proto.ip4 2]], [], [], []⟩ :
            NodeState).externalAddrs =
          (⟨[[Proto.ip4 1]], [], [], []⟩ : NodeState).externalAddrs ++ [a]) :=
  (C6_external_address_set_monotone defaultOpt "pid"
    ⟨[[Proto.ip4 1]], [], [], []⟩ (.identifyReceived "q" [Proto.ip4 2])
    ⟨[[Proto.ip4 1], [Proto.ip4 2]], [], [], []⟩
    [.logInfo "BehaviourEvent::Identify",
     .logDebug "identify received observed addr",
     .addExternalAddressCall [Proto.ip4 2]] (by rfl)).1

/-- C10: before the event loop is entered exactly one pubsub subscribe call
is issued, and it is for the configured discovery topic name; the initial
subscription set is exactly that topic, the application-message topic is not
subscribed at startup (whenever its name differs from the discovery name),
and it is joined only reactively — a message carrying it triggers a
subscribe call for it inside the loop. -/
theorem C10_startup_subscribes_discovery_only (local_key fresh_key : Keypair)
    (opt : Opt) (rejected : List String) (sw : SwarmModel)
    (h : create_swarm local_key fresh_key opt rejected = .ok sw) :
    sw.subscribeCallsIssued = [opt.gossipsub_peer_discovery] ∧
    sw.initialState.subscribedTopics = [opt.gossipsub_peer_discovery] ∧
    (opt.dcontact_topic ≠ opt.gossipsub_peer_discovery →
      opt.dcontact_topic ∉ sw.initialState.subscribedTopics) ∧
    (∀ lpid s m, GossipsubMessage.topic m = opt.dcontact_topic →
      ∃ p, event_loop_step opt lpid s (.gossipsubMessage m) = .ok p ∧
        Effect.subscribeCall opt.dcontact_topic ∈ p.2) := by
  by_cases hrej : opt.gossipsub_peer_discovery ∈ rejected
  · simp [create_swarm, gossipsubSubscribe, hrej] at h
  · simp [create_swarm, gossipsubSubscribe, hrej] at h
    obtain rfl := h.symm
    refine ⟨rfl, by simp, fun hne => by simpa using hne,
      fun lpid s m hm => ?_⟩
    obtain ⟨p, hp, hmem, -⟩ := gossipsubMessage_step_subscribes opt lpid s m
    exact ⟨p, hp, hm ▸ hmem⟩

/-- Witness for C10: with the default options, the persisted key and the
default all-allowing filter, the single startup subscribe call is for the
discovery topic. -/
theorem C10_witness :
    swExample.subscribeCallsIssued = [defaultOpt.gossipsub_peer_discovery] :=
  (C10_startup_subscribes_discovery_only ⟨[1]⟩ ⟨[2]⟩ defaultOpt [] swExample
    rfl).1

/-- C1 (code-bug evidence): `create_swarm` passes the persisted identity to
the behaviours but builds the swarm with `SwarmBuilder::with_new_identity()`
(main.rs line 362), so the peer identifier the composed transport stack
authenticates under is derived from a freshly drawn key, not from the
persisted key file — even though the same function logs the persisted key's
peer id and advertises its public key over identify. -/
theorem C1_transport_not_keyed_by_persisted_identity :
    ∃ sw, create_swarm ⟨[1]⟩ ⟨[2]⟩ defaultOpt [] = .ok sw ∧
      swarmTransportPeerId sw ≠ peerIdOf (⟨[1]⟩ : Keypair) ∧
      sw.identifyAdvertisedPublicKey = Keypair.publicKey ⟨[1]⟩ ∧
      sw.localPeerIdLogged = peerIdOf (⟨[1]⟩ : Keypair) :=
  ⟨swExample, rfl, by decide, rfl, rfl⟩
